import Mathlib

/-!
Verification of the multi-bank-integration banking core.

Shallow embedding of the Python sources under src/banking/ :
money amounts (Python floats) are modelled as exact rationals, the
credit score (a Python int) as an integer, and object mutation as
explicit state passing.  Operations that may raise are modelled with
Except, the error value carrying the exception message together with
the account state as it stands when the exception propagates.
Time stamps, hash-derived identifiers and log formatting that claims do
not depend on are abstracted: identifiers are taken as parameters and
security-log events keep only their message text.
-/

namespace Banking

/-- The single-quote character, used in messages emitted by the code. -/
def squote : String := String.singleton (Char.ofNat 39)

/-- Render a rational as the code renders a float with two decimals
(the Python f-string format .2f), rounding to the nearest cent. -/
def fmtMoney (q : ℚ) : String :=
  let c : ℤ := round (q * 100)
  let sign := if c < 0 then "-" else ""
  let n := c.natAbs
  let units := n / 100
  let frac := n % 100
  let fracStr := if frac < 10 then "0" ++ toString frac else toString frac
  sign ++ toString units ++ "." ++ fracStr

/-- models.TransactionType : the seven transaction kinds. -/
inductive TransactionType where
  | deposit
  | withdrawal
  | transfer
  | loan
  | repayment
  | fee
  | interest
deriving DecidableEq, Repr

/-- models.AccountStatus : the four account statuses. -/
inductive AccountStatus where
  | active
  | locked
  | suspended
  | closed
deriving DecidableEq, Repr

/-- models.Transaction : one immutable ledger entry (timestamp and
generated id abstracted away). -/
structure Transaction where
  transaction_type : TransactionType
  amount : ℚ
  description : String
  provider : String
deriving DecidableEq, Repr

/-- models.TransactionResult : the structured outcome every operation
returns (timestamp and random transaction id abstracted away). -/
structure TransactionResult where
  success : Bool
  message : String
  amount : ℚ
  new_balance : ℚ
deriving DecidableEq, Repr

/-- security.SecurityManager state : locked flag, failed-attempt
counter and the security event log (messages only). -/
structure SecurityState where
  locked : Bool
  failed_attempts : ℕ
  security_log : List String
deriving DecidableEq, Repr

/-- One entry of loan.LoanManager.loan_history (issue date abstracted). -/
structure LoanRecord where
  amount : ℚ
  interest_rate : ℚ
  loan_type : String
  status : String
deriving DecidableEq, Repr

/-- loan.LoanManager state owned by an account. -/
structure LoanState where
  loan_balance : ℚ
  interest_rate : ℚ
  loan_history : List LoanRecord
deriving DecidableEq, Repr

/-- account.BankAccount : the mutable account state (creation time and
the class-level registry abstracted; the hash-derived account id is a
plain string parameter). -/
structure Account where
  balance : ℚ
  savings : ℚ
  name : String
  transactions : List Transaction
  autoSavingsPercentage : ℚ
  creditLimit : ℚ
  credit_score : ℤ
  account_id : String
  provider : String
  status : AccountStatus
  loan : LoanState
  security : SecurityState
deriving DecidableEq, Repr

/-- SecurityManager._log_security_event : append a message to the log. -/
def logSecurityEvent (a : Account) (message : String) : Account :=
  { a with security :=
      { a.security with security_log := a.security.security_log ++ [message] } }

/-- The account state BankAccount.__init__ builds for a non-negative
initial amount (default autoSavingsPercentage 5, credit score 500,
provider Default, fresh security and loan state). -/
def initAccount (initialAmount : ℚ) (acctName : String) (creditLimit : ℚ)
    (account_id : String) : Account :=
  { balance := initialAmount
    savings := 0
    name := acctName
    transactions := []
    autoSavingsPercentage := 5
    creditLimit := creditLimit
    credit_score := 500
    account_id := account_id
    provider := "Default"
    status := AccountStatus.active
    loan := { loan_balance := 0, interest_rate := 5 / 100, loan_history := [] }
    security := { locked := false, failed_attempts := 0, security_log := [] } }

/-- BankAccount.__init__ : rejects a negative initial balance, else
builds the fresh account state. -/
def mkAccount (initialAmount : ℚ) (acctName : String) (creditLimit : ℚ)
    (account_id : String) : Except String Account :=
  if initialAmount < 0 then
    Except.error "Error: Initial balance cannot be negative."
  else
    Except.ok (initAccount initialAmount acctName creditLimit account_id)

/-- BankAccount.deposit : raises SecurityException when the gate is
locked (error carries the message and the post-raise state, whose
security log gained the blocked-access event); otherwise splits the
amount between savings and balance by the auto-savings percentage and
appends one deposit ledger entry. -/
def deposit (a : Account) (amount : ℚ) (description : String) :
    Except (String × Account) (Account × TransactionResult) :=
  if a.security.locked then
    Except.error ("Account is locked. Cannot perform deposit",
      logSecurityEvent a "Blocked access to deposit while account locked")
  else
    let savingsAmount := amount * (a.autoSavingsPercentage / 100)
    let tx : Transaction :=
      { transaction_type := TransactionType.deposit
        amount := amount
        description := description ++ " | Auto-Saved $" ++ fmtMoney savingsAmount
        provider := a.provider }
    let a1 := { a with
      balance := a.balance + (amount - savingsAmount)
      savings := a.savings + savingsAmount
      transactions := a.transactions ++ [tx] }
    Except.ok (a1,
      { success := true
        message := "Deposited $" ++ fmtMoney amount ++ ". Auto-Saved: $" ++
          fmtMoney savingsAmount
        amount := amount
        new_balance := a1.balance })

/-- BankAccount.withdraw : failed Result when the gate is locked or the
amount would breach the overdraft floor, otherwise debits the balance
and appends one withdrawal ledger entry. -/
def withdraw (a : Account) (amount : ℚ) (description : String) :
    Account × TransactionResult :=
  if a.security.locked then
    (a, { success := false
          message := "Withdrawal Failed: Account " ++ squote ++ a.name ++
            squote ++ " is LOCKED"
          amount := amount
          new_balance := a.balance })
  else if a.balance - amount ≥ -a.creditLimit then
    let tx : Transaction :=
      { transaction_type := TransactionType.withdrawal
        amount := amount
        description := description
        provider := a.provider }
    let a1 := { a with
      balance := a.balance - amount
      transactions := a.transactions ++ [tx] }
    (a1, { success := true
           message := "Withdrawn $" ++ fmtMoney amount ++ ". New balance: $" ++
             fmtMoney a1.balance
           amount := amount
           new_balance := a1.balance })
  else
    (a, { success := false
          message := "Insufficient funds, even with overdraft"
          amount := amount
          new_balance := a.balance })

/-- utils.transaction_context : snapshot (balance, savings) on entry;
run the protected region; if it fails, restore exactly those two fields
on the state the region left behind and propagate the failure. -/
def transaction_context (a : Account)
    (body : Account → Except (String × Account) Account) :
    Except (String × Account) Account :=
  let prev_state := (a.balance, a.savings)
  match body a with
  | Except.ok a1 => Except.ok a1
  | Except.error (e, a1) =>
      Except.error (e, { a1 with balance := prev_state.1, savings := prev_state.2 })

/-- SecurityManager.lock_account : set the locked flag and log. -/
def lock_account (a : Account) : Account :=
  logSecurityEvent { a with security := { a.security with locked := true } }
    "Account locked"

/-- SecurityManager.unlock_account : code 1234 or no code unlocks and
resets the failed-attempt counter; a wrong code increments the counter
and, at three or more failures, logs a lock event (the source never
sets the locked flag on this path). -/
def unlock_account (a : Account) (verification_code : Option String) :
    Account × Bool :=
  if verification_code = some "1234" ∨ verification_code = none then
    (logSecurityEvent
      { a with security :=
          { a.security with locked := false, failed_attempts := 0 } }
      "Account unlocked successfully", true)
  else
    let n := a.security.failed_attempts + 1
    let a1 := logSecurityEvent
      { a with security := { a.security with failed_attempts := n } }
      ("Failed unlock attempt (" ++ toString n ++ ")")
    let a2 :=
      if n ≥ 3 then
        logSecurityEvent a1 "Account locked due to too many failed attempts"
      else a1
    (a2, false)

/-- SecurityManager.record_failed_attempt : increment the counter, log,
and at three or more failures actually lock the account. -/
def record_failed_attempt (a : Account) : Account :=
  let n := a.security.failed_attempts + 1
  let a1 := logSecurityEvent
    { a with security := { a.security with failed_attempts := n } }
    ("Failed authentication attempt (" ++ toString n ++ ")")
  if n ≥ 3 then lock_account a1 else a1

/-- loan.LoanManager multiplier used by predict_loan_approval :
personal 2, auto 3, mortgage 10, business 5, anything else 1.5. -/
def multiplierOf (loan_type : String) : ℚ :=
  if loan_type = "personal" then 2
  else if loan_type = "auto" then 3
  else if loan_type = "mortgage" then 10
  else if loan_type = "business" then 5
  else 3 / 2

/-- loan.LoanManager.DEFAULT_RATES.get with the personal rate as the
default : personal 5 percent, auto 3.5, mortgage 2.5, business 6. -/
def rateOf (loan_type : String) : ℚ :=
  if loan_type = "personal" then 5 / 100
  else if loan_type = "auto" then 35 / 1000
  else if loan_type = "mortgage" then 25 / 1000
  else if loan_type = "business" then 6 / 100
  else 5 / 100

/-- loan.LoanManager.predict_loan_approval : the lesser of the
requested amount and credit score times the per-type multiplier. -/
def predict_loan_approval (a : Account) (requested_amount : ℚ)
    (loan_type : String) : ℚ :=
  min ((a.credit_score : ℚ) * multiplierOf loan_type) requested_amount

/-- loan.LoanManager.request_loan : denied while a loan is outstanding
or when the amount exceeds the approval cap; on success sets the
per-type interest rate, credits the balance, debits the credit score by
30 and appends a loan ledger entry and an active history record. -/
def request_loan (a : Account) (amount : ℚ) (loan_type : String) :
    Account × TransactionResult :=
  if a.loan.loan_balance > 0 then
    (a, { success := false
          message := "Loan Request Denied: You have an active loan"
          amount := amount
          new_balance := a.balance })
  else
    let max_borrowable := predict_loan_approval a amount loan_type
    if amount > max_borrowable then
      (a, { success := false
            message := "Loan Request Denied: Max you can borrow is $" ++
              fmtMoney max_borrowable
            amount := amount
            new_balance := a.balance })
    else
      let tx : Transaction :=
        { transaction_type := TransactionType.loan
          amount := amount
          description := "Loan approved: " ++ loan_type ++ " loan"
          provider := a.provider }
      let record : LoanRecord :=
        { amount := amount
          interest_rate := rateOf loan_type
          loan_type := loan_type
          status := "active" }
      let a1 := { a with
        balance := a.balance + amount
        credit_score := a.credit_score - 30
        transactions := a.transactions ++ [tx]
        loan := { loan_balance := amount
                  interest_rate := rateOf loan_type
                  loan_history := a.loan.loan_history ++ [record] } }
      (a1, { success := true
             message := "Loan Approved! Borrowed $" ++ fmtMoney amount
             amount := amount
             new_balance := a1.balance })

/-- account_linking.AccountLinking state : the primary account, the
ordered linked-account list and the provider-to-id map (an association
list with dict key semantics through lookup). -/
structure Registry where
  primary : Account
  linked_accounts : List Account
  external_ids : List (String × String)
deriving DecidableEq, Repr

/-- The first linked account whose provider matches, as the search loop
in transfer_between_accounts finds it. -/
def findTarget : String → List Account → Option Account
  | _, [] => none
  | p, x :: rest => if x.provider = p then some x else findTarget p rest

/-- Credit the first linked account whose provider matches and append
its transfer ledger entry, leaving every other account untouched. -/
def creditTarget (p : String) (amount : ℚ) (tx : Transaction) :
    List Account → List Account
  | [] => []
  | x :: rest =>
      if x.provider = p then
        { x with balance := x.balance + amount
                 transactions := x.transactions ++ [tx] } :: rest
      else x :: creditTarget p amount tx rest

/-- account_linking.AccountLinking.transfer_between_accounts : fails on
an unknown provider key, on amount above the primary balance, or when
no linked account carries the provider; otherwise debits the primary,
credits the target and appends one transfer ledger entry to each. -/
def transfer_between_accounts (r : Registry) (to_provider : String)
    (amount : ℚ) : Registry × TransactionResult :=
  if (r.external_ids.lookup to_provider).isNone then
    (r, { success := false
          message := "No linked account from " ++ to_provider
          amount := amount
          new_balance := r.primary.balance })
  else if r.primary.balance < amount then
    (r, { success := false
          message := "Insufficient funds to transfer $" ++ fmtMoney amount
          amount := amount
          new_balance := r.primary.balance })
  else
    match findTarget to_provider r.linked_accounts with
    | none =>
        (r, { success := false
              message := "Could not find account from " ++ to_provider
              amount := amount
              new_balance := r.primary.balance })
    | some _ =>
        let source_tx : Transaction :=
          { transaction_type := TransactionType.transfer
            amount := amount
            description := "Transferred to " ++ to_provider ++ " account"
            provider := r.primary.provider }
        let target_tx : Transaction :=
          { transaction_type := TransactionType.transfer
            amount := amount
            description := "Received from " ++ r.primary.provider ++ " account"
            provider := to_provider }
        let primary1 := { r.primary with
          balance := r.primary.balance - amount
          transactions := r.primary.transactions ++ [source_tx] }
        ({ r with
            primary := primary1
            linked_accounts :=
              creditTarget to_provider amount target_tx r.linked_accounts },
         { success := true
           message := "Transferred $" ++ fmtMoney amount ++ " to " ++
             to_provider ++ " account"
           amount := amount
           new_balance := primary1.balance })

/-- One deposit or withdraw call with its amount, for operation traces. -/
inductive AccountOp where
  | dep (amount : ℚ)
  | wd (amount : ℚ)
deriving DecidableEq, Repr

/-- The amount an operation carries. -/
def AccountOp.amount : AccountOp → ℚ
  | AccountOp.dep a => a
  | AccountOp.wd a => a

/-- Run one deposit or withdraw call; a raised SecurityException on
deposit counts as a reported failure and leaves the propagated state. -/
def applyOp (a : Account) (op : AccountOp) : Account × Bool :=
  match op with
  | AccountOp.dep amt =>
      match deposit a amt "Deposited amount" with
      | Except.ok (a1, r) => (a1, r.success)
      | Except.error (_, a1) => (a1, false)
  | AccountOp.wd amt =>
      let p := withdraw a amt "Withdrew amount"
      (p.1, p.2.success)

/-- The trace of a call sequence : for each call, the state before it,
the state after it and its success flag. -/
def opTrace : Account → List AccountOp → List (Account × Account × Bool)
  | _, [] => []
  | a, op :: rest =>
      let s := applyOp a op
      (a, s.1, s.2) :: opTrace s.1 rest

/-- The documented account invariant : the balance sits on or above the
overdraft floor and the auto-savings percentage lies in [0, 100]. -/
def AccountInv (a : Account) : Prop :=
  -a.creditLimit ≤ a.balance ∧
  0 ≤ a.autoSavingsPercentage ∧ a.autoSavingsPercentage ≤ 100

instance (a : Account) : Decidable (AccountInv a) := by
  unfold AccountInv; infer_instance

/-- Serialized form of one transaction, as Transaction.to_dict writes
it and Transaction.from_dict reads it (timestamp and id abstracted). -/
structure TxData where
  transaction_type : String
  amount : ℚ
  description : String
  provider : String
deriving DecidableEq, Repr

/-- Serialized form of an account, as BankAccount.serialize writes it
(timestamps and linked-account ids abstracted away). -/
structure AccountData where
  account_id : String
  name : String
  balance : ℚ
  savings : ℚ
  provider : String
  credit_score : ℤ
  credit_limit : ℚ
  auto_savings_percentage : ℚ
  status : String
  transactions : List TxData
  loan_balance : ℚ
  interest_rate : ℚ
  loan_history : List LoanRecord
deriving DecidableEq, Repr

/-- Transaction.__init__ coercion of a string transaction type : an
unknown string falls back to FEE with a warning instead of raising. -/
def parseTransactionType (s : String) : TransactionType :=
  if s = "deposit" then TransactionType.deposit
  else if s = "withdrawal" then TransactionType.withdrawal
  else if s = "transfer" then TransactionType.transfer
  else if s = "loan" then TransactionType.loan
  else if s = "repayment" then TransactionType.repayment
  else if s = "fee" then TransactionType.fee
  else if s = "interest" then TransactionType.interest
  else TransactionType.fee

/-- Transaction.from_dict : rebuild a ledger entry, coercing the stored
type string with the FEE fallback. -/
def txFromDict (d : TxData) : Transaction :=
  { transaction_type := parseTransactionType d.transaction_type
    amount := d.amount
    description := d.description
    provider := d.provider }

/-- The AccountStatus(value) enum call : defined only on the four
member values, raising ValueError on anything else. -/
def statusOfString (s : String) : Option AccountStatus :=
  if s = "active" then some AccountStatus.active
  else if s = "locked" then some AccountStatus.locked
  else if s = "suspended" then some AccountStatus.suspended
  else if s = "closed" then some AccountStatus.closed
  else none

/-- BankAccount.deserialize : runs the constructor (which re-validates
the non-negative balance), restores the stored fields, coerces the
status through the AccountStatus enum call, which raises ValueError on
an unknown status string, and rebuilds the transactions with the FEE
fallback. -/
def deserialize (d : AccountData) : Except String Account :=
  if d.balance < 0 then
    Except.error "Error: Initial balance cannot be negative."
  else
    match statusOfString d.status with
    | none => Except.error (d.status ++ " is not a valid AccountStatus")
    | some st =>
        Except.ok
          { initAccount d.balance d.name d.credit_limit d.account_id with
            account_id := d.account_id
            savings := d.savings
            provider := d.provider
            credit_score := d.credit_score
            autoSavingsPercentage := d.auto_savings_percentage
            status := st
            transactions := d.transactions.map txFromDict
            loan := { loan_balance := d.loan_balance
                      interest_rate := d.interest_rate
                      loan_history := d.loan_history } }

/-! Concrete states used to witness the theorems. -/

/-- A freshly created account with balance 2000 and credit limit 200. -/
def demoAcct : Account := initAccount 2000 "Mayowa" 200 "acct-1"

/-- The demo account with its security gate locked. -/
def lockedAcct : Account := lock_account demoAcct

/-- A protected region that mutates balance, savings and the ledger and
then fails, leaving its partial state behind at the raise point. -/
def guardDemoBody : Account → Except (String × Account) Account :=
  fun a => Except.error ("simulated failure",
    { a with
        balance := a.balance + 999
        savings := a.savings + 123
        transactions := a.transactions ++
          [{ transaction_type := TransactionType.fee
             amount := 1
             description := "partial write"
             provider := a.provider }] })

/-! Claim theorems. -/

/-- C5 counterexample: on a freshly created account with balance 2000
and credit limit 200, withdraw(2150) does not fail: it succeeds and
leaves the balance at -150, refuting the claimed failure with the
balance unchanged at 2000. -/
theorem withdraw_2150_succeeds_counterexample :
    mkAccount 2000 "Mayowa" 200 "acct-1" = Except.ok demoAcct ∧
    (withdraw demoAcct 2150 "Withdrew amount").2.success = true ∧
    (withdraw demoAcct 2150 "Withdrew amount").1.balance = -150 := by
  refine ⟨rfl, ?_, ?_⟩ <;> norm_num [withdraw, demoAcct, initAccount]

/-- C5 amended: on a freshly created account with balance 2000 and
credit limit 200, withdraw(2250) fails and leaves the balance unchanged
at 2000, after which withdraw(2100) succeeds leaving the balance at
-100. -/
theorem withdraw_scenario_amended :
    mkAccount 2000 "Mayowa" 200 "acct-1" = Except.ok demoAcct ∧
    (withdraw demoAcct 2250 "Withdrew amount").2.success = false ∧
    (withdraw demoAcct 2250 "Withdrew amount").1.balance = 2000 ∧
    (withdraw (withdraw demoAcct 2250 "Withdrew amount").1 2100
      "Withdrew amount").2.success = true ∧
    (withdraw (withdraw demoAcct 2250 "Withdrew amount").1 2100
      "Withdrew amount").1.balance = -100 := by
  refine ⟨rfl, ?_, ?_, ?_, ?_⟩ <;> norm_num [withdraw, demoAcct, initAccount]

/-- C6: on an unlocked account with auto-savings percentage p in
[0, 100], deposit of a positive amount A succeeds, moves exactly
A * p / 100 to savings and A * (1 - p / 100) to the balance, and
appends one deposit ledger entry recording the auto-saved portion. -/
theorem deposit_split_spec (a : Account) (A : ℚ) (desc : String)
    (hlock : a.security.locked = false)
    (hp0 : 0 ≤ a.autoSavingsPercentage)
    (hp1 : a.autoSavingsPercentage ≤ 100)
    (hA : 0 < A) :
    ∃ a1 res, deposit a A desc = Except.ok (a1, res) ∧
      res.success = true ∧
      a1.savings = a.savings + A * (a.autoSavingsPercentage / 100) ∧
      a1.balance = a.balance + A * (1 - a.autoSavingsPercentage / 100) ∧
      a1.transactions = a.transactions ++
        [{ transaction_type := TransactionType.deposit
           amount := A
           description := desc ++ " | Auto-Saved $" ++
             fmtMoney (A * (a.autoSavingsPercentage / 100))
           provider := a.provider }] := by
  simp only [deposit, hlock, Bool.false_eq_true, if_false]
  refine ⟨_, _, rfl, rfl, rfl, ?_, rfl⟩
  show a.balance + (A - A * (a.autoSavingsPercentage / 100)) = _
  ring

/-- C6 witness: a concrete deposit of 100 at the default 5 percent on
the demo account. -/
theorem deposit_split_spec_witness :
    ∃ a1 res, deposit demoAcct 100 "Deposited amount" = Except.ok (a1, res) ∧
      res.success = true ∧
      a1.savings = demoAcct.savings + 100 * (demoAcct.autoSavingsPercentage / 100) ∧
      a1.balance = demoAcct.balance + 100 * (1 - demoAcct.autoSavingsPercentage / 100) ∧
      a1.transactions = demoAcct.transactions ++
        [{ transaction_type := TransactionType.deposit
           amount := 100
           description := "Deposited amount" ++ " | Auto-Saved $" ++
             fmtMoney (100 * (demoAcct.autoSavingsPercentage / 100))
           provider := demoAcct.provider }] :=
  deposit_split_spec demoAcct 100 "Deposited amount" rfl
    (by norm_num [demoAcct, initAccount]) (by norm_num [demoAcct, initAccount])
    (by norm_num)

/-- C10: deposit validates nothing about its amount: on any unlocked
account it succeeds for every amount, zero and negative included, and
applies the auto-savings split; concretely, a deposit of -10000 on the
demo account drives the balance below -creditLimit and the savings
below 0, violating the documented invariants. -/
theorem deposit_no_validation :
    (∀ (a : Account) (amt : ℚ) (desc : String), a.security.locked = false →
      ∃ a1 res, deposit a amt desc = Except.ok (a1, res) ∧
        res.success = true ∧
        a1.savings = a.savings + amt * (a.autoSavingsPercentage / 100) ∧
        a1.balance = a.balance + (amt - amt * (a.autoSavingsPercentage / 100)) ∧
        a1.transactions.length = a.transactions.length + 1) ∧
    (∃ a1 res, deposit demoAcct (-10000) "Deposited amount" = Except.ok (a1, res) ∧
      res.success = true ∧
      a1.balance < -a1.creditLimit ∧
      a1.savings < 0) := by
  constructor
  · intro a amt desc hlock
    simp only [deposit, hlock, Bool.false_eq_true, if_false]
    refine ⟨_, _, rfl, rfl, rfl, rfl, ?_⟩
    simp
  · simp only [deposit, demoAcct, initAccount]
    norm_num
    refine ⟨_, _, ⟨rfl, rfl⟩, rfl, ?_, ?_⟩ <;> norm_num

/-- C10 witness: the universal part applied at a concrete negative
deposit of -50 on the demo account. -/
theorem deposit_no_validation_witness :
    ∃ a1 res, deposit demoAcct (-50) "Deposited amount" = Except.ok (a1, res) ∧
      res.success = true ∧
      a1.savings = demoAcct.savings + (-50) * (demoAcct.autoSavingsPercentage / 100) ∧
      a1.balance = demoAcct.balance +
        ((-50) - (-50) * (demoAcct.autoSavingsPercentage / 100)) ∧
      a1.transactions.length = demoAcct.transactions.length + 1 :=
  deposit_no_validation.1 demoAcct (-50) "Deposited amount" rfl

/-- C8: on an account whose gate is locked, withdraw returns a failed
Result (it does not raise) whose message names the account and says it
is LOCKED, leaving the account untouched, while deposit raises the
SecurityException, leaving balance, savings and transaction history
unchanged (only the security log gains the blocked-access event). -/
theorem locked_gate_blocks_spec (a : Account) (amt : ℚ) (desc : String)
    (hlock : a.security.locked = true) :
    (withdraw a amt desc).2.success = false ∧
    (withdraw a amt desc).2.message =
      "Withdrawal Failed: Account " ++ squote ++ a.name ++ squote ++
        " is LOCKED" ∧
    (withdraw a amt desc).1 = a ∧
    (∃ a1, deposit a amt desc =
        Except.error ("Account is locked. Cannot perform deposit", a1) ∧
      a1.balance = a.balance ∧ a1.savings = a.savings ∧
      a1.transactions = a.transactions) := by
  simp [withdraw, deposit, hlock, logSecurityEvent]

/-- C8 witness: the locked demo account at a concrete withdrawal and
deposit of 10. -/
theorem locked_gate_blocks_spec_witness :
    (withdraw lockedAcct 10 "Withdrew amount").2.success = false ∧
    (withdraw lockedAcct 10 "Withdrew amount").2.message =
      "Withdrawal Failed: Account " ++ squote ++ lockedAcct.name ++ squote ++
        " is LOCKED" ∧
    (withdraw lockedAcct 10 "Withdrew amount").1 = lockedAcct ∧
    (∃ a1, deposit lockedAcct 10 "Withdrew amount" =
        Except.error ("Account is locked. Cannot perform deposit", a1) ∧
      a1.balance = lockedAcct.balance ∧ a1.savings = lockedAcct.savings ∧
      a1.transactions = lockedAcct.transactions) :=
  locked_gate_blocks_spec lockedAcct 10 "Withdrew amount" rfl

/-- C3: if the region protected by transaction_context fails, the guard
leaves the balance and the savings exactly at their entry snapshot,
restored together on the propagated state, and propagates the failure
the region raised. -/
theorem transaction_context_rollback (a : Account)
    (body : Account → Except (String × Account) Account)
    (e : String) (a1 : Account)
    (h : transaction_context a body = Except.error (e, a1)) :
    a1.balance = a.balance ∧ a1.savings = a.savings ∧
    ∃ ap, body a = Except.error (e, ap) := by
  unfold transaction_context at h
  cases hb : body a with
  | ok a2 => rw [hb] at h; cases h
  | error p =>
      cases p with
      | mk e2 a2 =>
          rw [hb] at h
          simp only [Except.error.injEq, Prod.mk.injEq] at h
          obtain ⟨he, ha⟩ := h
          subst he
          exact ⟨by rw [← ha], by rw [← ha], a2, rfl⟩

/-- C3 witness: a concrete failing region on the demo account; the
propagated state carries the pre-entry balance and savings. -/
theorem transaction_context_rollback_witness :
    ∃ a1, transaction_context demoAcct guardDemoBody =
        Except.error ("simulated failure", a1) ∧
      a1.balance = demoAcct.balance ∧ a1.savings = demoAcct.savings ∧
      ∃ ap, guardDemoBody demoAcct = Except.error ("simulated failure", ap) := by
  have h := transaction_context_rollback demoAcct guardDemoBody
    "simulated failure" _ rfl
  exact ⟨_, rfl, h.1, h.2.1, h.2.2⟩

/-- A fresh unlocked gate on a zero-balance account. -/
def freshGate : Account := initAccount 0 "Gate" 200 "acct-g"

/-- Three consecutive unlock attempts with the wrong code 0000. -/
def threeWrongUnlocks (a : Account) : Account :=
  (unlock_account
    (unlock_account (unlock_account a (some "0000")).1 (some "0000")).1
    (some "0000")).1

/-- C4: divergence between the gate specification and the source. From
the UNLOCKED state, three consecutive unlock attempts with a wrong code
leave the gate still unlocked even though the code appends the event
saying the account was locked for too many failed attempts; the sibling
record_failed_attempt path at the same threshold does lock; and a
correct unlock from LOCKED does reset the failed-attempt counter to 0
and unlocks. -/
theorem security_gate_lockout_divergence :
    (threeWrongUnlocks freshGate).security.locked = false ∧
    (threeWrongUnlocks freshGate).security.failed_attempts = 3 ∧
    "Account locked due to too many failed attempts" ∈
      (threeWrongUnlocks freshGate).security.security_log ∧
    (record_failed_attempt (record_failed_attempt
      (record_failed_attempt freshGate))).security.locked = true ∧
    (unlock_account (lock_account (threeWrongUnlocks freshGate))
      (some "1234")).1.security.locked = false ∧
    (unlock_account (lock_account (threeWrongUnlocks freshGate))
      (some "1234")).1.security.failed_attempts = 0 := by
  refine ⟨?_, ?_, ?_, ?_, ?_, ?_⟩ <;>
    simp [threeWrongUnlocks, unlock_account, record_failed_attempt,
      lock_account, logSecurityEvent, freshGate, initAccount]

/-- A serialized account record carrying an undefined status value and
a transaction with an unknown type string. -/
def badStatusData : AccountData :=
  { account_id := "acct-x"
    name := "Imported"
    balance := 100
    savings := 10
    provider := "PalmPay"
    credit_score := 480
    credit_limit := 200
    auto_savings_percentage := 5
    status := "frozen"
    transactions :=
      [{ transaction_type := "bogus"
         amount := 10
         description := "old entry"
         provider := "PalmPay" }]
    loan_balance := 0
    interest_rate := 5 / 100
    loan_history := [] }

/-- C9 counterexample: deserializing a record whose status is the
undefined value frozen raises the enum ValueError instead of falling
back to a default status: the import crashes. -/
theorem deserialize_unknown_status_raises :
    deserialize badStatusData =
      Except.error ("frozen" ++ " is not a valid AccountStatus") := by
  rfl

/-- C9 amended: deserialize re-validates the constructor invariant,
rejecting a negative balance, and unknown transaction-type strings in
the imported history fall back to the FEE type instead of raising; but
an undefined status value makes deserialize raise a ValueError rather
than fall back to a default status. -/
theorem deserialize_amended (d : AccountData) :
    (d.balance < 0 →
      deserialize d = Except.error "Error: Initial balance cannot be negative.") ∧
    (0 ≤ d.balance → statusOfString d.status = none →
      deserialize d = Except.error (d.status ++ " is not a valid AccountStatus")) ∧
    (∀ st, 0 ≤ d.balance → statusOfString d.status = some st →
      ∃ a, deserialize d = Except.ok a ∧ a.status = st ∧
        a.balance = d.balance ∧ a.savings = d.savings ∧
        a.transactions = d.transactions.map txFromDict) ∧
    (∀ s : String, s ∉ ["deposit", "withdrawal", "transfer", "loan",
        "repayment", "fee", "interest"] →
      parseTransactionType s = TransactionType.fee) := by
  refine ⟨?_, ?_, ?_, ?_⟩
  · intro h
    unfold deserialize
    rw [if_pos h]
  · intro h0 hs
    unfold deserialize
    rw [if_neg (not_lt.mpr h0), hs]
  · intro st h0 hs
    unfold deserialize
    rw [if_neg (not_lt.mpr h0), hs]
    exact ⟨_, rfl, rfl, rfl, rfl, rfl⟩
  · intro s hs
    simp only [List.mem_cons, List.mem_singleton, not_or] at hs
    obtain ⟨h1, h2, h3, h4, h5, h6, h7, _⟩ := hs
    simp only [parseTransactionType, if_neg h1, if_neg h2, if_neg h3,
      if_neg h4, if_neg h5, if_neg h6, if_neg h7]

/-- C9 amended witness: a valid record with status active and one entry
with an unknown type string imports with the FEE fallback, and the
fallback evaluated at the concrete string bogus yields FEE. -/
theorem deserialize_amended_witness :
    (∃ a, deserialize { badStatusData with status := "active" } = Except.ok a ∧
      a.status = AccountStatus.active ∧
      a.balance = { badStatusData with status := "active" }.balance ∧
      a.savings = { badStatusData with status := "active" }.savings ∧
      a.transactions =
        ({ badStatusData with status := "active" } : AccountData).transactions.map
          txFromDict) ∧
    parseTransactionType "bogus" = TransactionType.fee := by
  constructor
  · exact (deserialize_amended { badStatusData with status := "active" }).2.2.1
      AccountStatus.active (by norm_num [badStatusData]) rfl
  · exact (deserialize_amended badStatusData).2.2.2 "bogus" (by decide)

/-- C7: a loan request while a loan is outstanding always fails with no
state change; a request above creditScore times the per-type multiplier
(personal 2, auto 3, mortgage 10, business 5, anything else 1.5) is
denied with no state change; and a granted loan of amount A credits the
balance by exactly A, debits the credit score by exactly 30, sets the
per-type interest rate, and appends a loan ledger entry and an active
loan-history record. -/
theorem request_loan_spec (a : Account) (amount : ℚ) (t : String) :
    (a.loan.loan_balance > 0 →
      (request_loan a amount t).1 = a ∧
      (request_loan a amount t).2.success = false) ∧
    (¬ a.loan.loan_balance > 0 →
      amount > (a.credit_score : ℚ) * multiplierOf t →
      (request_loan a amount t).1 = a ∧
      (request_loan a amount t).2.success = false) ∧
    (¬ a.loan.loan_balance > 0 →
      amount ≤ (a.credit_score : ℚ) * multiplierOf t →
      (request_loan a amount t).2.success = true ∧
      (request_loan a amount t).1.balance = a.balance + amount ∧
      (request_loan a amount t).1.credit_score = a.credit_score - 30 ∧
      (request_loan a amount t).1.loan.interest_rate = rateOf t ∧
      (request_loan a amount t).1.loan.loan_balance = amount ∧
      (request_loan a amount t).1.transactions = a.transactions ++
        [{ transaction_type := TransactionType.loan
           amount := amount
           description := "Loan approved: " ++ t ++ " loan"
           provider := a.provider }] ∧
      (request_loan a amount t).1.loan.loan_history = a.loan.loan_history ++
        [{ amount := amount
           interest_rate := rateOf t
           loan_type := t
           status := "active" }]) ∧
    (multiplierOf "personal" = 2 ∧ multiplierOf "auto" = 3 ∧
      multiplierOf "mortgage" = 10 ∧ multiplierOf "business" = 5 ∧
      (t ≠ "personal" → t ≠ "auto" → t ≠ "mortgage" → t ≠ "business" →
        multiplierOf t = 3 / 2)) := by
  refine ⟨?_, ?_, ?_, rfl, rfl, rfl, rfl, ?_⟩
  · intro h
    simp only [request_loan, if_pos h]
    exact ⟨trivial, trivial⟩
  · intro h hgt
    have h2 : predict_loan_approval a amount t < amount :=
      lt_of_le_of_lt (min_le_left _ _) hgt
    simp only [request_loan, if_neg h, if_pos h2]
    exact ⟨trivial, trivial⟩
  · intro h hle
    have h3 : amount ≤ predict_loan_approval a amount t :=
      le_min hle (le_refl amount)
    simp only [request_loan, if_neg h, if_neg (not_lt.mpr h3)]
    exact ⟨trivial, trivial, trivial, trivial, trivial, trivial, trivial⟩
  · intro h1 h2 h3 h4
    simp only [multiplierOf, if_neg h1, if_neg h2, if_neg h3, if_neg h4]

/-- C7 witness: the spec scenario on the demo account with credit
score 500 : a 1200 personal request is denied with no state change, a
900 personal request is approved with balance credited by 900 and
credit score 470, and a request on an account with an outstanding loan
fails with no state change. -/
theorem request_loan_spec_witness :
    ((request_loan demoAcct 1200 "personal").1 = demoAcct ∧
      (request_loan demoAcct 1200 "personal").2.success = false) ∧
    ((request_loan demoAcct 900 "personal").2.success = true ∧
      (request_loan demoAcct 900 "personal").1.balance =
        demoAcct.balance + 900 ∧
      (request_loan demoAcct 900 "personal").1.credit_score =
        demoAcct.credit_score - 30 ∧
      (request_loan demoAcct 900 "personal").1.loan.interest_rate =
        rateOf "personal" ∧
      (request_loan demoAcct 900 "personal").1.loan.loan_balance = 900 ∧
      (request_loan demoAcct 900 "personal").1.transactions =
        demoAcct.transactions ++
          [{ transaction_type := TransactionType.loan
             amount := 900
             description := "Loan approved: " ++ "personal" ++ " loan"
             provider := demoAcct.provider }] ∧
      (request_loan demoAcct 900 "personal").1.loan.loan_history =
        demoAcct.loan.loan_history ++
          [{ amount := 900
             interest_rate := rateOf "personal"
             loan_type := "personal"
             status := "active" }]) ∧
    ((request_loan (request_loan demoAcct 900 "personal").1 300
        "personal").1 = (request_loan demoAcct 900 "personal").1 ∧
      (request_loan (request_loan demoAcct 900 "personal").1 300
        "personal").2.success = false) := by
  refine ⟨?_, ?_, ?_⟩
  · exact (request_loan_spec demoAcct 1200 "personal").2.1
      (by norm_num [demoAcct, initAccount])
      (by norm_num [demoAcct, initAccount, multiplierOf])
  · exact (request_loan_spec demoAcct 900 "personal").2.2.1
      (by norm_num [demoAcct, initAccount])
      (by norm_num [demoAcct, initAccount, multiplierOf])
  · exact (request_loan_spec (request_loan demoAcct 900 "personal").1 300
      "personal").1
      (by norm_num [request_loan, predict_loan_approval, demoAcct,
        initAccount, multiplierOf])

/-- Crediting the first provider match rewrites exactly one list
element: the list splits around the first match, every earlier element
has a different provider, and only the match gains the amount and the
ledger entry. -/
theorem creditTarget_decomp (p : String) (amt : ℚ) (tx : Transaction)
    (l : List Account) (t : Account) (h : findTarget p l = some t) :
    ∃ pre post, l = pre ++ t :: post ∧ (∀ x ∈ pre, x.provider ≠ p) ∧
      t.provider = p ∧
      creditTarget p amt tx l = pre ++
        ({ t with balance := t.balance + amt
                  transactions := t.transactions ++ [tx] } :: post) := by
  induction l with
  | nil => cases h
  | cons x rest ih =>
      by_cases hx : x.provider = p
      · rw [findTarget, if_pos hx, Option.some.injEq] at h
        subst h
        refine ⟨[], rest, rfl, by simp, hx, ?_⟩
        rw [creditTarget, if_pos hx]
        rfl
      · rw [findTarget, if_neg hx] at h
        obtain ⟨pre, post, hl, hpre, htp, hct⟩ := ih h
        refine ⟨x :: pre, post, by rw [List.cons_append, hl], ?_, htp, ?_⟩
        · intro y hy
          rcases List.mem_cons.mp hy with h1 | h1
          · rw [h1]; exact hx
          · exact hpre y h1
        · rw [creditTarget, if_neg hx, hct, List.cons_append]

/-- C2: transfer_between_accounts is atomic. On failure (unknown
provider key, amount above the primary balance, or no linked account
resolving the provider) the registry is unchanged: no balance moves and
no ledger entry is appended anywhere. On success the primary balance
drops by exactly the amount with exactly one transfer entry appended,
and exactly one linked account (the first provider match) gains exactly
the amount with exactly one transfer entry appended, all other linked
accounts untouched. -/
theorem transfer_atomicity (r : Registry) (p : String) (amt : ℚ) :
    ((transfer_between_accounts r p amt).2.success = false →
      (transfer_between_accounts r p amt).1 = r ∧
      ((r.external_ids.lookup p).isNone = true ∨ r.primary.balance < amt ∨
        findTarget p r.linked_accounts = none)) ∧
    ((transfer_between_accounts r p amt).2.success = true →
      amt ≤ r.primary.balance ∧
      (transfer_between_accounts r p amt).1.primary.balance =
        r.primary.balance - amt ∧
      (transfer_between_accounts r p amt).1.primary.transactions =
        r.primary.transactions ++
          [{ transaction_type := TransactionType.transfer
             amount := amt
             description := "Transferred to " ++ p ++ " account"
             provider := r.primary.provider }] ∧
      ∃ t pre post, findTarget p r.linked_accounts = some t ∧
        r.linked_accounts = pre ++ t :: post ∧
        (∀ x ∈ pre, x.provider ≠ p) ∧
        (transfer_between_accounts r p amt).1.linked_accounts = pre ++
          ({ t with balance := t.balance + amt
                    transactions := t.transactions ++
                      [{ transaction_type := TransactionType.transfer
                         amount := amt
                         description := "Received from " ++
                           r.primary.provider ++ " account"
                         provider := p }] } :: post)) := by
  by_cases h1 : (r.external_ids.lookup p).isNone = true
  · constructor
    · intro _
      refine ⟨?_, Or.inl h1⟩
      simp only [transfer_between_accounts, if_pos h1]
    · intro hs
      simp only [transfer_between_accounts, if_pos h1] at hs
      cases hs
  · by_cases h2 : r.primary.balance < amt
    · constructor
      · intro _
        refine ⟨?_, Or.inr (Or.inl h2)⟩
        simp only [transfer_between_accounts, if_neg h1, if_pos h2]
      · intro hs
        simp only [transfer_between_accounts, if_neg h1, if_pos h2] at hs
        cases hs
    · cases hft : findTarget p r.linked_accounts with
      | none =>
          constructor
          · intro _
            refine ⟨?_, Or.inr (Or.inr rfl)⟩
            simp only [transfer_between_accounts, if_neg h1, if_neg h2, hft]
          · intro hs
            simp only [transfer_between_accounts, if_neg h1, if_neg h2,
              hft] at hs
            cases hs
      | some t =>
          constructor
          · intro hs
            simp only [transfer_between_accounts, if_neg h1, if_neg h2,
              hft] at hs
            cases hs
          · intro _
            obtain ⟨pre, post, hl, hpre, _, hct⟩ :=
              creditTarget_decomp p amt
                { transaction_type := TransactionType.transfer
                  amount := amt
                  description := "Received from " ++ r.primary.provider ++
                    " account"
                  provider := p }
                r.linked_accounts t hft
            refine ⟨not_lt.mp h2, ?_, ?_, t, pre, post, rfl, hl, hpre, ?_⟩ <;>
              simp only [transfer_between_accounts, if_neg h1, if_neg h2,
                hft, hct]

/-- A linked external account on provider PalmPay with balance 500. -/
def palmAcct : Account :=
  { initAccount 500 "Palm" 200 "acct-2" with provider := "PalmPay" }

/-- A registry: the demo account with palmAcct linked under PalmPay. -/
def demoReg : Registry :=
  { primary := demoAcct
    linked_accounts := [palmAcct]
    external_ids := [("PalmPay", "acct-2")] }

/-- C2 witness: a successful 300 transfer on the demo registry, with
the success branch of the atomicity theorem instantiated there. -/
theorem transfer_atomicity_witness :
    (transfer_between_accounts demoReg "PalmPay" 300).2.success = true ∧
    (300 : ℚ) ≤ demoReg.primary.balance ∧
    (transfer_between_accounts demoReg "PalmPay" 300).1.primary.balance =
      demoReg.primary.balance - 300 ∧
    (transfer_between_accounts demoReg "PalmPay" 300).1.primary.transactions =
      demoReg.primary.transactions ++
        [{ transaction_type := TransactionType.transfer
           amount := 300
           description := "Transferred to " ++ "PalmPay" ++ " account"
           provider := demoReg.primary.provider }] ∧
    (∃ t pre post, findTarget "PalmPay" demoReg.linked_accounts = some t ∧
      demoReg.linked_accounts = pre ++ t :: post ∧
      (∀ x ∈ pre, x.provider ≠ "PalmPay") ∧
      (transfer_between_accounts demoReg "PalmPay" 300).1.linked_accounts =
        pre ++
          ({ t with balance := t.balance + 300
                    transactions := t.transactions ++
                      [{ transaction_type := TransactionType.transfer
                         amount := 300
                         description := "Received from " ++
                           demoReg.primary.provider ++ " account"
                         provider := "PalmPay" }] } :: post)) := by
  have hs : (transfer_between_accounts demoReg "PalmPay" 300).2.success = true := by
    norm_num [transfer_between_accounts, demoReg, demoAcct, palmAcct,
      initAccount, findTarget, List.lookup]
  have h := (transfer_atomicity demoReg "PalmPay" 300).2 hs
  exact ⟨hs, h.1, h.2.1, h.2.2.1, h.2.2.2⟩

/-- Each single deposit or withdraw call with a positive amount
preserves the account invariant; a successful call lands on or above
the overdraft floor and a failed call leaves balance, savings and the
transaction history unchanged. -/
theorem applyOp_preserves (a : Account) (op : AccountOp)
    (hInv : AccountInv a) (hpos : 0 < op.amount) :
    AccountInv (applyOp a op).1 ∧
    ((applyOp a op).2 = true →
      -(applyOp a op).1.creditLimit ≤ (applyOp a op).1.balance) ∧
    ((applyOp a op).2 = false →
      (applyOp a op).1.balance = a.balance ∧
      (applyOp a op).1.savings = a.savings ∧
      (applyOp a op).1.transactions = a.transactions) := by
  obtain ⟨hb, hp0, hp1⟩ := hInv
  cases op with
  | dep A =>
      simp only [AccountOp.amount] at hpos
      by_cases hl : a.security.locked = true
      · simp only [applyOp, deposit, if_pos hl, logSecurityEvent]
        exact ⟨⟨hb, hp0, hp1⟩, fun h => Bool.noConfusion h,
          fun _ => ⟨trivial, trivial, trivial⟩⟩
      · have hsave : A * (a.autoSavingsPercentage / 100) ≤ A := by
          rw [← mul_div_assoc, div_le_iff₀ (by norm_num : (0:ℚ) < 100)]
          nlinarith
        have hbal : -a.creditLimit ≤
            a.balance + (A - A * (a.autoSavingsPercentage / 100)) := by
          linarith
        simp only [applyOp, deposit, if_neg hl]
        exact ⟨⟨hbal, hp0, hp1⟩, fun _ => hbal, fun h => Bool.noConfusion h⟩
  | wd A =>
      simp only [AccountOp.amount] at hpos
      by_cases hl : a.security.locked = true
      · simp only [applyOp, withdraw, if_pos hl]
        exact ⟨⟨hb, hp0, hp1⟩, fun h => Bool.noConfusion h,
          fun _ => ⟨trivial, trivial, trivial⟩⟩
      · by_cases hok : a.balance - A ≥ -a.creditLimit
        · simp only [applyOp, withdraw, if_neg hl, if_pos hok]
          exact ⟨⟨hok, hp0, hp1⟩, fun _ => hok, fun h => Bool.noConfusion h⟩
        · simp only [applyOp, withdraw, if_neg hl, if_neg hok]
          exact ⟨⟨hb, hp0, hp1⟩, fun h => Bool.noConfusion h,
            fun _ => ⟨trivial, trivial, trivial⟩⟩

/-- C1: along any sequence of deposit and withdraw calls with positive
amounts on an account satisfying the invariant, every call either
succeeds with the balance on or above -creditLimit afterwards, or
reports failure with balance, savings and transaction history exactly
as before the call. -/
theorem deposit_withdraw_trace_invariant (a : Account)
    (ops : List AccountOp) (hInv : AccountInv a)
    (hpos : ∀ op ∈ ops, 0 < op.amount) :
    ∀ s ∈ opTrace a ops,
      (s.2.2 = true → -s.2.1.creditLimit ≤ s.2.1.balance) ∧
      (s.2.2 = false → s.2.1.balance = s.1.balance ∧
        s.2.1.savings = s.1.savings ∧
        s.2.1.transactions = s.1.transactions) := by
  induction ops generalizing a with
  | nil =>
      intro s hs
      simp only [opTrace, List.not_mem_nil] at hs
  | cons op rest ih =>
      intro s hs
      have hstep := applyOp_preserves a op hInv
        (hpos op (List.mem_cons_self op rest))
      simp only [opTrace, List.mem_cons] at hs
      rcases hs with h | h
      · rw [h]
        exact ⟨hstep.2.1, hstep.2.2⟩
      · exact ih (applyOp a op).1 hstep.1
          (fun o ho => hpos o (List.mem_cons_of_mem op ho)) s h

/-- C1 witness: the trace theorem instantiated on the demo account with
a deposit of 100 followed by a withdrawal of 5000: the successful
deposit lands above the overdraft floor and the failing withdrawal
leaves balance, savings and the transaction history unchanged. -/
theorem deposit_withdraw_trace_invariant_witness :
    -(applyOp demoAcct (AccountOp.dep 100)).1.creditLimit ≤
      (applyOp demoAcct (AccountOp.dep 100)).1.balance ∧
    (applyOp (applyOp demoAcct (AccountOp.dep 100)).1
        (AccountOp.wd 5000)).1.balance =
      (applyOp demoAcct (AccountOp.dep 100)).1.balance ∧
    (applyOp (applyOp demoAcct (AccountOp.dep 100)).1
        (AccountOp.wd 5000)).1.savings =
      (applyOp demoAcct (AccountOp.dep 100)).1.savings ∧
    (applyOp (applyOp demoAcct (AccountOp.dep 100)).1
        (AccountOp.wd 5000)).1.transactions =
      (applyOp demoAcct (AccountOp.dep 100)).1.transactions := by
  have h := deposit_withdraw_trace_invariant demoAcct
    [AccountOp.dep 100, AccountOp.wd 5000, AccountOp.wd 100]
    (by norm_num [AccountInv, demoAcct, initAccount])
    (by intro op hop; fin_cases hop <;> norm_num [AccountOp.amount])
  have h1 := h (demoAcct, (applyOp demoAcct (AccountOp.dep 100)).1,
      (applyOp demoAcct (AccountOp.dep 100)).2)
    (by simp only [opTrace]; exact List.mem_cons_self _ _)
  have h2 := h ((applyOp demoAcct (AccountOp.dep 100)).1,
      (applyOp (applyOp demoAcct (AccountOp.dep 100)).1
        (AccountOp.wd 5000)).1,
      (applyOp (applyOp demoAcct (AccountOp.dep 100)).1
        (AccountOp.wd 5000)).2)
    (by simp only [opTrace]
        exact List.mem_cons_of_mem _ (List.mem_cons_self _ _))
  refine ⟨h1.1 ?_, h2.2 ?_⟩
  · norm_num [applyOp, deposit, demoAcct, initAccount]
  · norm_num [applyOp, withdraw, deposit, demoAcct, initAccount]

end Banking
